import Mathlib

/-!
Shallow embedding of the Windows service controller in
`service_windows.go` (package `service`): the `Execute` dispatch loop,
the mutex-guarded error slot used by `Run`, the `stopWait` /
`uninstallWait` polling primitives with their `getStopTimeout` deadline,
and the facade operations `Status`, `Start`, `Stop`, `Restart`,
`Install`, `Uninstall`.

External effects (the service control manager, the registry, the
application callbacks) are modelled as explicit inputs: each fallible
external call becomes a field of an environment structure holding the
result the outside world returns for that call.  Go errors are modelled
as `String` (`GoErr`); a `nil`-able error is `Option GoErr`; calls that
return a value or an error are `Except`.
-/

namespace SvcModel

/-- Go `error` values, abstracted to their message. -/
abbrev GoErr := String

/-- Raw service states, mirroring the `svc.State` constants
(`Stopped`, `StartPending`, `StopPending`, `Running`, `ContinuePending`,
`PausePending`, `Paused`); `other n` stands for any numeric state value
outside the seven named ones. -/
inductive RawState
  | stopped
  | startPending
  | stopPending
  | running
  | continuePending
  | pausePending
  | paused
  | other (n : Nat)
deriving DecidableEq, Repr

/-- Mirror of `svc.AcceptStop`. -/
def acceptStop : Nat := 1

/-- Mirror of `svc.AcceptShutdown`. -/
def acceptShutdown : Nat := 4

/-- Mirror of `cmdsAccepted = svc.AcceptStop | svc.AcceptShutdown`
in `Execute`. -/
def cmdsAccepted : Nat := acceptStop ||| acceptShutdown

/-- Mirror of `svc.Status`: a state plus the accepted-commands bitmask
(`Accepts` has zero value 0 when the Go literal omits it). -/
structure SvcStatus where
  state : RawState
  accepts : Nat := 0
deriving DecidableEq, Repr

/-- The status literal `svc.Status{State: svc.StartPending}`. -/
def statusStartPending : SvcStatus := { state := .startPending }

/-- The status literal
`svc.Status{State: svc.Running, Accepts: cmdsAccepted}`. -/
def statusRunning : SvcStatus := { state := .running, accepts := cmdsAccepted }

/-- The status literal `svc.Status{State: svc.StopPending}`. -/
def statusStopPending : SvcStatus := { state := .stopPending }

/-- Control commands, mirroring `svc.Cmd`: the dispatch loop
distinguishes `Interrogate`, `Stop` and `Shutdown`; `other n` stands for
every remaining command value, all of which hit the `default` branch. -/
inductive Cmd
  | interrogate
  | stop
  | shutdown
  | other (n : Nat)
deriving DecidableEq, Repr

/-- Mirror of `svc.ChangeRequest` as consumed by `Execute`:
the command and the `CurrentStatus` the host supervisor sends along. -/
structure ChangeRequest where
  cmd : Cmd
  currentStatus : SvcStatus
deriving DecidableEq, Repr

/-- The application side of the dispatch loop: the results its lifecycle
callbacks would return.  `startErr` is the result of `ws.i.Start`,
`stopErr` of `ws.i.Stop`; `shutdown = none` means the client does not
implement the `Shutdowner` interface, `shutdown = some r` means it does
and its `Shutdown` callback returns `r`. -/
structure Client where
  startErr : Option GoErr
  stopErr : Option GoErr
  shutdown : Option (Option GoErr)
deriving DecidableEq, Repr

/-- Observable events of one `Execute` run, in order: statuses sent on
the `changes` channel, lifecycle callbacks invoked (with their result),
and writes to the error slot via `ws.setError`. -/
inductive Event
  | emit (st : SvcStatus)
  | callStart (r : Option GoErr)
  | callStop (r : Option GoErr)
  | callShutdown (r : Option GoErr)
  | setErr (e : GoErr)
deriving DecidableEq, Repr

/-- Events produced by handling a Stop/Shutdown callback result `r`
built with constructor `mk` (`Event.callStop` or `Event.callShutdown`):
the call itself, then `setError` when it failed. -/
def callbackEvents (mk : Option GoErr → Event) (r : Option GoErr) : List Event :=
  match r with
  | some e => [mk (some e), .setErr e]
  | none => [mk none]

/-- Return value of `Execute` after a Stop/Shutdown callback returning
`r`: `(true, 2)` on error, `(false, 0)` after `break loop`. -/
def callbackRet (r : Option GoErr) : Option (Bool × Nat) :=
  match r with
  | some _ => some (true, 2)
  | none => some (false, 0)

/-- The receive loop of `Execute` (the `for { c := <-r; switch c.Cmd }`
part), run against a finite prefix `reqs` of the inbound channel.
Returns the events produced and the loop's outcome: `some (b, ec)` when
the loop terminated and `Execute` returned `(b, ec)`, `none` when the
loop consumed every request and is still blocked on `<-r`. -/
def execLoop (c : Client) : List ChangeRequest → List Event × Option (Bool × Nat)
  | [] => ([], none)
  | req :: rest =>
    match req.cmd with
    | .interrogate =>
      let p := execLoop c rest
      (.emit req.currentStatus :: p.1, p.2)
    | .stop =>
      (.emit statusStopPending :: callbackEvents Event.callStop c.stopErr,
        callbackRet c.stopErr)
    | .shutdown =>
      match c.shutdown with
      | some r =>
        (.emit statusStopPending :: callbackEvents Event.callShutdown r,
          callbackRet r)
      | none =>
        (.emit statusStopPending :: callbackEvents Event.callStop c.stopErr,
          callbackRet c.stopErr)
    | .other _ => execLoop c rest

/-- Mirror of `windowsService.Execute`: emit `StartPending`, invoke
`ws.i.Start` (on error record it and return `(true, 1)`), emit `Running`
with the accepted-commands mask, then enter the receive loop. -/
def execute (c : Client) (reqs : List ChangeRequest) :
    List Event × Option (Bool × Nat) :=
  match c.startErr with
  | some e =>
    ([.emit statusStartPending, .callStart (some e), .setErr e], some (true, 1))
  | none =>
    let p := execLoop c reqs
    (.emit statusStartPending :: .callStart none :: .emit statusRunning :: p.1,
      p.2)

/-- The interrogate echoes a request list produces: `Execute` re-sends
`c.CurrentStatus` for each `Interrogate` and emits nothing for ignored
commands. -/
def echoEvents (reqs : List ChangeRequest) : List Event :=
  reqs.filterMap fun r =>
    match r.cmd with
    | .interrogate => some (.emit r.currentStatus)
    | _ => none

/-- Commands on which the receive loop terminates. -/
def Cmd.isStopLike : Cmd → Bool
  | .stop => true
  | .shutdown => true
  | _ => false

/-- State of the mutex-guarded slot `ws.stopStartErr` after replaying
the `setError` writes in an event list over an initial slot value
(last writer wins, as in the source where each write holds `errSync`). -/
def applyWrites (init : Option GoErr) (evs : List Event) : Option GoErr :=
  evs.foldl
    (fun acc ev =>
      match ev with
      | .setErr e => some e
      | _ => acc)
    init

/-- Mirror of the non-interactive branch of `windowsService.Run`:
`ws.setError(nil)`, then `svc.Run` (which drives `Execute` over `reqs`
and itself returns `hostErr`), then return `ws.getError()` when set,
else `hostErr`, else nil.  `initSlot` is the slot's value left from any
earlier run, overwritten by the initial reset. -/
def runNonInteractive (initSlot : Option GoErr) (c : Client)
    (reqs : List ChangeRequest) (hostErr : Option GoErr) : Option GoErr :=
  let slot0 : Option GoErr := none
  let _ := initSlot
  let ex := execute c reqs
  let slot1 := applyWrites slot0 ex.1
  match slot1 with
  | some e => some e
  | none => hostErr

/-- Mirror of the interactive branch of `Run`: call `ws.i.Start`
directly, return its error if any; otherwise block on the interrupt
signal and return `ws.i.Stop`'s result. -/
def runInteractive (c : Client) : Option GoErr :=
  match c.startErr with
  | some e => some e
  | none => c.stopErr

/-! Deadline resolution: `getStopTimeout` reads
`WaitToKillServiceTimeout` from the registry and falls back to 20000ms
on any failure. -/

/-- Digits-only parse used by `atoi?`. -/
def digitsToNat? (l : List Char) : Option Nat :=
  if l = [] then none
  else if l.all (fun ch => ch.isDigit) then
    some (l.foldl (fun acc ch => acc * 10 + (ch.toNat - 48)) 0)
  else none

/-- Mirror of `strconv.Atoi`: an optional sign followed by at least one
digit; anything else is a parse error. -/
def atoi? (s : String) : Option Int :=
  match s.data with
  | [] => none
  | '+' :: rest => (digitsToNat? rest).map Int.ofNat
  | '-' :: rest => (digitsToNat? rest).map (fun n => -(n : Int))
  | l => (digitsToNat? l).map Int.ofNat

/-- The registry state `getStopTimeout` consults:
`controlKey = none` models `registry.OpenKey` failing;
`some none` models the key opening but `GetStringValue` failing;
`some (some s)` models reading the string value `s`. -/
structure RegistryEnv where
  controlKey : Option (Option String)
deriving DecidableEq, Repr

/-- Mirror of `getStopTimeout` (milliseconds): the parsed
`WaitToKillServiceTimeout` value, or the 20000ms default on any of the
three failure paths. -/
def getStopTimeout (reg : RegistryEnv) : Int :=
  match reg.controlKey with
  | none => 20000
  | some none => 20000
  | some (some s) =>
    match atoi? s with
    | none => 20000
    | some v => v

/-! The `stopWait` polling loop and the facade operations built on it. -/

/-- Windows API errors, as the source discriminates them: an
`syscall.Errno` (checked against `errnoServiceDoesNotExist = 1060` and
`ERROR_FILE_NOT_FOUND = 2`) or any other error. -/
inductive WinErr
  | errno (n : Nat)
  | other (s : String)
deriving DecidableEq, Repr

/-- Mirror of `errnoServiceDoesNotExist syscall.Errno = 1060`. -/
def errnoServiceDoesNotExist : Nat := 1060

/-- Errors surfaced by the facade operations, tagged by the source
expression that produced them. -/
inductive OpErr
  | win (w : WinErr)
  | control (e : GoErr)
  | query (e : GoErr)
  | stopTimeout (name : String)
  | start (e : GoErr)
deriving DecidableEq, Repr

/-- Polls that fit in `stopWait`'s deadline: the timeout channel fires
at `getStopTimeout() + 2 * 50ms` and the ticker every 50ms, so this is
the budget of `s.Query()` polls before the timeout case is taken. -/
def stopTickBudget (reg : RegistryEnv) : Nat :=
  (getStopTimeout reg + 100).toNat / 50

/-- The `for status.State != svc.Stopped` loop of `stopWait`: succeed as
soon as the last observed state is `Stopped`; otherwise burn one tick,
query (`q i` is the result of the i-th `s.Query()` call), and propagate
a query error; time out when the tick budget is exhausted. -/
def stopWaitLoop (name : String) (q : Nat → Except GoErr RawState) :
    Nat → Nat → RawState → Except OpErr Unit
  | 0, _, st =>
    if st = .stopped then .ok () else .error (.stopTimeout name)
  | fuel + 1, i, st =>
    if st = .stopped then .ok ()
    else
      match q i with
      | .error e => .error (.query e)
      | .ok st' => stopWaitLoop name q fuel (i + 1) st'

/-- Mirror of `windowsService.stopWait`: issue `s.Control(svc.Stop)`
(result `ctrl`), propagate its error, then poll until the observed
state is `Stopped` or the deadline passes. -/
def stopWait (name : String) (reg : RegistryEnv)
    (ctrl : Except GoErr RawState) (q : Nat → Except GoErr RawState) :
    Except OpErr Unit :=
  match ctrl with
  | .error e => .error (.control e)
  | .ok st => stopWaitLoop name q (stopTickBudget reg) 0 st

/-- External results consumed by one `Stop`/`Restart` call:
`mgrRes`/`openRes` are the outcomes of `lowPrivMgr`/`lowPrivSvc`
(`none` = success), `ctrl` the `s.Control(svc.Stop)` result, `q` the
successive `s.Query()` results, `reg` the registry for the deadline,
and `startRes` the `s.Start()` outcome (used by `Restart`/`Start`). -/
structure ScmEnv where
  mgrRes : Option WinErr
  openRes : Option WinErr
  ctrl : Except GoErr RawState
  q : Nat → Except GoErr RawState
  reg : RegistryEnv
  startRes : Option GoErr

/-- Mirror of `windowsService.Stop`: `lowPrivMgr`, `lowPrivSvc`, then
`stopWait`. -/
def stop (name : String) (e : ScmEnv) : Except OpErr Unit :=
  match e.mgrRes with
  | some w => .error (.win w)
  | none =>
    match e.openRes with
    | some w => .error (.win w)
    | none => stopWait name e.reg e.ctrl e.q

/-- Mirror of `windowsService.Start`: `lowPrivMgr`, `lowPrivSvc`, then
`s.Start()` fire-and-forget. -/
def start (e : ScmEnv) : Except OpErr Unit :=
  match e.mgrRes with
  | some w => .error (.win w)
  | none =>
    match e.openRes with
    | some w => .error (.win w)
    | none =>
      match e.startRes with
      | some er => .error (.start er)
      | none => .ok ()

/-- Mirror of `windowsService.Restart`: `lowPrivMgr`, `lowPrivSvc`,
`stopWait`, and only on its success `s.Start()`.  The second component
counts how many times the start command was issued. -/
def restart (name : String) (e : ScmEnv) : Except OpErr Unit × Nat :=
  match e.mgrRes with
  | some w => (.error (.win w), 0)
  | none =>
    match e.openRes with
    | some w => (.error (.win w), 0)
    | none =>
      match stopWait name e.reg e.ctrl e.q with
      | .error w => (.error w, 0)
      | .ok _ =>
        match e.startRes with
        | some er => (.error (.start er), 1)
        | none => (.ok (), 1)

/-! The `Status` query and its sub-state collapsing. -/

/-- The collapsed status values `StatusUnknown`, `StatusRunning`,
`StatusStopped` returned to callers. -/
inductive Status
  | unknown
  | running
  | stopped
deriving DecidableEq, Repr

/-- Errors `Status` can return alongside `StatusUnknown`. -/
inductive StatusErr
  | win (w : WinErr)
  | notInstalled
  | queryFailed (e : GoErr)
  | unknownStatus (st : RawState)
deriving DecidableEq, Repr

/-- External results consumed by one `Status` call. -/
structure StatusEnv where
  mgrRes : Option WinErr
  openRes : Option WinErr
  queryRes : Except GoErr RawState
deriving Repr

/-- Mirror of `windowsService.Status`: open a low-privilege manager and
service handle (an open failing with errno 1060 becomes
`ErrNotInstalled`), query, and collapse the raw state through the
`switch status.State` table. -/
def statusOf (env : StatusEnv) : Status × Option StatusErr :=
  match env.mgrRes with
  | some w => (.unknown, some (.win w))
  | none =>
    match env.openRes with
    | some w =>
      if w = .errno errnoServiceDoesNotExist then (.unknown, some .notInstalled)
      else (.unknown, some (.win w))
    | none =>
      match env.queryRes with
      | .error e => (.unknown, some (.queryFailed e))
      | .ok st =>
        match st with
        | .startPending => (.running, none)
        | .running => (.running, none)
        | .pausePending => (.stopped, none)
        | .paused => (.stopped, none)
        | .continuePending => (.stopped, none)
        | .stopPending => (.stopped, none)
        | .stopped => (.stopped, none)
        | .other n => (.unknown, some (.unknownStatus (.other n)))

/-! `Install` and its event-log registration cleanup. -/

/-- Character-list substring test backing `strContains`. -/
def listContainsSub (hay needle : List Char) : Bool :=
  (List.range (hay.length + 1)).any fun i =>
    needle = (hay.drop i).take needle.length

/-- Mirror of `strings.Contains`: does `hay` contain `needle` as a
substring? -/
def strContains (hay needle : String) : Bool :=
  listContainsSub hay.data needle.data

/-- The configuration fields `Install` reads from `ws.Config` and its
option map: the service name, the `EnvVars` map (as a list of pairs)
and the `OnFailure` option (`none` = key absent, so `Option.string`
yields the empty-string default and the recovery block is skipped). -/
structure WSConfig where
  name : String
  envVars : List (String × String)
  onFailure : Option String
deriving DecidableEq, Repr

/-- Registry results consumed by
`setEnvironmentVariablesInRegistry` (`none` = the call succeeded). -/
structure EnvRegistry where
  createKey : Option GoErr
  setStrings : Option GoErr
  close : Option GoErr
deriving DecidableEq, Repr

/-- Mirror of `windowsService.setEnvironmentVariablesInRegistry`:
no-op when `EnvVars` is empty, else create the key, set the
`Environment` value, and close, wrapping each failure. -/
def setEnvironmentVariablesInRegistry (envVars : List (String × String))
    (r : EnvRegistry) : Option GoErr :=
  if envVars = [] then none
  else
    match r.createKey with
    | some e => some ("failed creating env var registry key, err = " ++ e)
    | none =>
      match r.setStrings with
      | some e => some ("failed setting env var registry key, err = " ++ e)
      | none =>
        match r.close with
        | some e => some ("failed closing env var registry key, err = " ++ e)
        | none => none

/-- External results consumed by one `Install` call, in source order:
`execPath`, `mgr.Connect`, the env-var registry calls, the
`m.OpenService` existence probe (`openExisting = true` means the service
already exists), `m.CreateService`, `s.SetRecoveryActions` (consulted
only when `OnFailure` is set), and `eventlog.InstallAsEventCreate`
(whose error message is tested for the substring `"exists"`). -/
structure InstallEnv where
  execPath : Except GoErr String
  connect : Option GoErr
  envReg : EnvRegistry
  openExisting : Bool
  create : Option GoErr
  setRecovery : Option GoErr
  installEventLog : Option GoErr
deriving Repr

/-- Outcome of `Install`: the returned error (`none` = success),
whether `m.CreateService` succeeded, and whether the freshly created
entry was deleted again by the event-log cleanup path. -/
structure InstallOutcome where
  result : Option GoErr
  created : Bool
  deleted : Bool
deriving DecidableEq, Repr

/-- Mirror of `windowsService.Install`. -/
def install (cfg : WSConfig) (env : InstallEnv) : InstallOutcome :=
  match env.execPath with
  | .error e => ⟨some e, false, false⟩
  | .ok _ =>
    match env.connect with
    | some e => ⟨some e, false, false⟩
    | none =>
      match setEnvironmentVariablesInRegistry cfg.envVars env.envReg with
      | some e => ⟨some e, false, false⟩
      | none =>
        if env.openExisting then
          ⟨some ("service " ++ cfg.name ++ " already exists"), false, false⟩
        else
          match env.create with
          | some e => ⟨some e, false, false⟩
          | none =>
            match (if cfg.onFailure.getD "" ≠ "" then env.setRecovery else none) with
            | some e => ⟨some e, true, false⟩
            | none =>
              match env.installEventLog with
              | some e =>
                if strContains e "exists" then ⟨none, true, false⟩
                else ⟨some ("SetupEventLogSource() failed: " ++ e), true, true⟩
              | none => ⟨none, true, false⟩

/-! `Uninstall` and its delete-convergence wait. -/

/-- Errors `Uninstall` can return, tagged by the source expression that
produced them (`stopFailed e` is the error of the initial `ws.Stop()`
returned unchanged). -/
inductive UniErr
  | stopFailed (e : OpErr)
  | connect (e : GoErr)
  | openFailed (name : String)
  | deleteFailed (e : GoErr)
  | removeEventLog (w : WinErr)
  | deleteTimeout (name : String)
deriving DecidableEq, Repr

/-- Mirror of `ERROR_FILE_NOT_FOUND`. -/
def errnoFileNotFound : Nat := 2

/-- Polls that fit in `uninstallWait`'s deadline: the timeout fires at
`getStopTimeout() + 2 * 100ms` and the ticker every 100ms. -/
def uninstallTickBudget (reg : RegistryEnv) : Nat :=
  (getStopTimeout reg + 200).toNat / 100

/-- The poll loop of `uninstallWait`: each tick re-opens the service
(`opens i` is the i-th `m.OpenService` result, `none` meaning the entry
still exists); succeed when the open fails with errno 1060, fail on any
other open error, and time out when the budget is exhausted. -/
def uninstallWaitLoop (name : String) (opens : Nat → Option WinErr) :
    Nat → Nat → Except UniErr Unit
  | 0, _ => .error (.deleteTimeout name)
  | fuel + 1, i =>
    match opens i with
    | none => uninstallWaitLoop name opens fuel (i + 1)
    | some w =>
      if w = .errno errnoServiceDoesNotExist then .ok ()
      else .error (.openFailed name)

/-- External results consumed by one `Uninstall` call: everything the
inner `ws.Stop()` consumes, then `mgr.Connect`, the `m.OpenService`
probe (`none` = the entry exists), `s.Delete()`, `eventlog.Remove`
(checked against `ERROR_FILE_NOT_FOUND`), the per-tick open results of
`uninstallWait`, and the registry read backing its deadline. -/
structure UninstallEnv where
  stopEnv : ScmEnv
  connect : Option GoErr
  openRes : Option WinErr
  deleteRes : Option GoErr
  removeRes : Option WinErr
  opens : Nat → Option WinErr
  reg : RegistryEnv

/-- Mirror of `windowsService.Uninstall`.  The second component records
whether `s.Delete()` was invoked. -/
def uninstall (name : String) (env : UninstallEnv) : Except UniErr Unit × Bool :=
  match stop name env.stopEnv with
  | .error e => (.error (.stopFailed e), false)
  | .ok _ =>
    match env.connect with
    | some e => (.error (.connect e), false)
    | none =>
      match env.openRes with
      | some w =>
        if w = .errno errnoServiceDoesNotExist then (.ok (), false)
        else (.error (.openFailed name), false)
      | none =>
        match env.deleteRes with
        | some e => (.error (.deleteFailed e), true)
        | none =>
          match env.removeRes with
          | some w =>
            if w = .errno errnoFileNotFound then
              (uninstallWaitLoop name env.opens (uninstallTickBudget env.reg) 0, true)
            else (.error (.removeEventLog w), true)
          | none =>
            (uninstallWaitLoop name env.opens (uninstallTickBudget env.reg) 0, true)

/-- The event constructor a Shutdown request dispatches to: the
`Shutdown` callback when the client implements `Shutdowner`, else the
`Stop` callback. -/
def shutdownMk (c : Client) : Option GoErr → Event :=
  match c.shutdown with
  | some _ => Event.callShutdown
  | none => Event.callStop

/-- The callback result a Shutdown request observes: the `Shutdown`
result when the client implements `Shutdowner`, else the `Stop`
result. -/
def shutdownResult (c : Client) : Option GoErr :=
  match c.shutdown with
  | some r => r
  | none => c.stopErr

/-- Number of `Stop`-callback invocations recorded in an event list. -/
def countCallStop (evs : List Event) : Nat :=
  (evs.filter fun ev =>
    match ev with
    | .callStop _ => true
    | _ => false).length

/-- Number of `Shutdown`-callback invocations recorded in an event
list. -/
def countCallShutdown (evs : List Event) : Nat :=
  (evs.filter fun ev =>
    match ev with
    | .callShutdown _ => true
    | _ => false).length

/-! Helper lemmas about the dispatch loop. -/

/-- A prefix of requests that contains no Stop/Shutdown contributes only
its interrogate echoes and leaves the loop's outcome to the rest. -/
theorem execLoop_append_nostop (c : Client) (pre rest : List ChangeRequest)
    (h : ∀ r ∈ pre, r.cmd.isStopLike = false) :
    execLoop c (pre ++ rest)
      = (echoEvents pre ++ (execLoop c rest).1, (execLoop c rest).2) := by
  induction pre with
  | nil => simp [echoEvents]
  | cons r pre ih =>
    have hr : r.cmd.isStopLike = false := h r (List.mem_cons_self r pre)
    have hpre : ∀ x ∈ pre, x.cmd.isStopLike = false :=
      fun x hx => h x (List.mem_cons_of_mem r hx)
    cases hc : r.cmd with
    | interrogate =>
      simp [execLoop, hc, echoEvents, List.filterMap_cons, ih hpre]
    | stop => simp [Cmd.isStopLike, hc] at hr
    | shutdown => simp [Cmd.isStopLike, hc] at hr
    | other n =>
      simp [execLoop, hc, echoEvents, List.filterMap_cons, ih hpre]

/-- Every event an interrogate echo list contains is an `emit`. -/
theorem echoEvents_all_emit (reqs : List ChangeRequest) :
    ∀ ev ∈ echoEvents reqs, ∃ st, ev = .emit st := by
  intro ev hev
  simp only [echoEvents, List.mem_filterMap] at hev
  obtain ⟨r, _, hr⟩ := hev
  cases hc : r.cmd <;> rw [hc] at hr <;> simp at hr
  exact ⟨_, hr.symm⟩

/-! Claim theorems. -/

/-- Claim C8: for every run of the dispatch loop whose request sequence
contains no Stop and no Shutdown (any mix of Interrogate and
unrecognized requests), the loop never terminates and never faults: it
emits `StartPending`, calls `Start`, emits `Running`, echoes the
current status for each Interrogate, ignores every unrecognized
request, and ends still blocked on the channel (outcome `none`). -/
theorem dispatch_no_stop_never_terminates (c : Client)
    (reqs : List ChangeRequest) (hstart : c.startErr = none)
    (h : ∀ r ∈ reqs, r.cmd.isStopLike = false) :
    execute c reqs
      = ([.emit statusStartPending, .callStart none, .emit statusRunning]
          ++ echoEvents reqs, none) := by
  have h1 := execLoop_append_nostop c reqs [] h
  simp only [List.append_nil, execLoop] at h1
  simp [execute, hstart, h1]

/-- Witness for C8: two Interrogate requests and one unrecognized
request leave the loop blocked, with both echoes delivered. -/
theorem dispatch_no_stop_never_terminates_witness :
    execute ⟨none, none, none⟩
      [⟨.interrogate, statusRunning⟩, ⟨.other 2, statusStartPending⟩,
        ⟨.interrogate, statusRunning⟩]
      = ([.emit statusStartPending, .callStart none, .emit statusRunning,
          .emit statusRunning, .emit statusRunning], none) := by
  have h := dispatch_no_stop_never_terminates ⟨none, none, none⟩
    [⟨.interrogate, statusRunning⟩, ⟨.other 2, statusStartPending⟩,
      ⟨.interrogate, statusRunning⟩] rfl (by decide)
  simpa [echoEvents] using h

/-- Unfolding equation for `applyWrites`. -/
theorem applyWrites_cons (init : Option GoErr) (ev : Event) (evs : List Event) :
    applyWrites init (ev :: evs)
      = applyWrites
          (match ev with
            | .setErr e => some e
            | _ => init)
          evs := rfl

/-- `applyWrites` splits over an append. -/
theorem applyWrites_append (init : Option GoErr) (a b : List Event) :
    applyWrites init (a ++ b) = applyWrites (applyWrites init a) b :=
  List.foldl_append _ _ _ _

/-- An event list with no `setErr` leaves the slot unchanged. -/
theorem applyWrites_no_set (init : Option GoErr) (evs : List Event)
    (h : ∀ e, Event.setErr e ∉ evs) : applyWrites init evs = init := by
  induction evs generalizing init with
  | nil => rfl
  | cons ev evs ih =>
    have h1 : ∀ e, Event.setErr e ∉ evs :=
      fun e he => h e (List.mem_cons_of_mem _ he)
    have h0 : ∀ e, ev ≠ Event.setErr e :=
      fun e he => h e (he ▸ List.mem_cons_self _ _)
    cases ev with
    | setErr e => exact absurd rfl (h0 e)
    | emit st => rw [applyWrites_cons]; exact ih init h1
    | callStart r => rw [applyWrites_cons]; exact ih init h1
    | callStop r => rw [applyWrites_cons]; exact ih init h1
    | callShutdown r => rw [applyWrites_cons]; exact ih init h1

/-- Interrogate echoes never write the error slot. -/
theorem applyWrites_echo (init : Option GoErr) (reqs : List ChangeRequest) :
    applyWrites init (echoEvents reqs) = init := by
  refine applyWrites_no_set init _ (fun e he => ?_)
  obtain ⟨st, hst⟩ := echoEvents_all_emit reqs _ he
  exact Event.noConfusion hst

/-- Claim C1: on a dispatch run whose request stream is a Stop-free
prefix followed by a Stop request, the status emissions (interrogate
echoes of the host-provided current status aside) are exactly
`StartPending`, then `Running` — only because `Start` succeeded — then
exactly one `StopPending`, emitted before `ws.i.Stop` is invoked; the
loop terminates immediately after the `Stop` callback returns, whether
it failed or not, ignoring every later request; and when `Start` fails
the run ends at `(true, 1)` with no `Running` and no receive loop. -/
theorem dispatch_stop_ordering (c : Client) (pre post : List ChangeRequest)
    (cs : SvcStatus) (hpre : ∀ r ∈ pre, r.cmd.isStopLike = false) :
    (c.startErr = none →
      execute c (pre ++ ⟨.stop, cs⟩ :: post)
        = (.emit statusStartPending :: .callStart none :: .emit statusRunning ::
            (echoEvents pre ++ .emit statusStopPending ::
              callbackEvents Event.callStop c.stopErr),
          callbackRet c.stopErr))
    ∧ (∀ e, c.startErr = some e →
      execute c (pre ++ ⟨.stop, cs⟩ :: post)
        = ([.emit statusStartPending, .callStart (some e), .setErr e],
          some (true, 1))) := by
  constructor
  · intro hs
    have h1 := execLoop_append_nostop c pre (⟨.stop, cs⟩ :: post) hpre
    simp only [execLoop] at h1
    simp [execute, hs, h1]
  · intro e he
    simp [execute, he]

/-- Witness for C1: one Interrogate, then a Stop whose callback fails;
the loop still emits one `StopPending` beforehand and terminates right
after the failing callback. -/
theorem dispatch_stop_ordering_witness :
    execute ⟨none, some "stop failed", none⟩
      [⟨.interrogate, statusRunning⟩, ⟨.stop, statusRunning⟩,
        ⟨.interrogate, statusRunning⟩]
      = ([.emit statusStartPending, .callStart none, .emit statusRunning,
          .emit statusRunning, .emit statusStopPending,
          .callStop (some "stop failed"), .setErr "stop failed"],
        some (true, 2)) := by
  have h := (dispatch_stop_ordering ⟨none, some "stop failed", none⟩
    [⟨.interrogate, statusRunning⟩] [⟨.interrogate, statusRunning⟩]
    statusRunning (by decide)).1 rfl
  simpa [echoEvents, callbackEvents, callbackRet] using h

/-- Characterization of a dispatch run ending in a Shutdown request:
the handler emits `StopPending` and then performs exactly the dispatch
`shutdownMk c` on the result `shutdownResult c`. -/
theorem execute_shutdown_eq (c : Client) (pre post : List ChangeRequest)
    (cs : SvcStatus) (hpre : ∀ r ∈ pre, r.cmd.isStopLike = false)
    (hstart : c.startErr = none) :
    execute c (pre ++ ⟨.shutdown, cs⟩ :: post)
      = (.emit statusStartPending :: .callStart none :: .emit statusRunning ::
          (echoEvents pre ++ .emit statusStopPending ::
            callbackEvents (shutdownMk c) (shutdownResult c)),
        callbackRet (shutdownResult c)) := by
  have h1 := execLoop_append_nostop c pre (⟨.shutdown, cs⟩ :: post) hpre
  cases hs : c.shutdown with
  | none =>
    simp only [execLoop, hs] at h1
    simp [execute, hstart, h1, shutdownMk, shutdownResult, hs]
  | some r =>
    simp only [execLoop, hs] at h1
    simp [execute, hstart, h1, shutdownMk, shutdownResult, hs]

/-- `applyWrites` on the empty list. -/
theorem applyWrites_nil (init : Option GoErr) : applyWrites init [] = init := rfl

/-- Interrogate echoes contain no events satisfying a predicate false
on emissions. -/
theorem filter_echo_nil (p : Event → Bool) (hp : ∀ st, p (.emit st) = false)
    (reqs : List ChangeRequest) : (echoEvents reqs).filter p = [] := by
  rw [List.filter_eq_nil_iff]
  intro ev hev
  obtain ⟨st, rfl⟩ := echoEvents_all_emit reqs ev hev
  simp [hp]

/-- Interrogate echoes contain no `Stop` callback events. -/
theorem filterStop_echo (reqs : List ChangeRequest) :
    (echoEvents reqs).filter
      (fun ev =>
        match ev with
        | Event.callStop _ => true
        | _ => false) = [] :=
  filter_echo_nil _ (fun _ => rfl) reqs

/-- Interrogate echoes contain no `Shutdown` callback events. -/
theorem filterShutdown_echo (reqs : List ChangeRequest) :
    (echoEvents reqs).filter
      (fun ev =>
        match ev with
        | Event.callShutdown _ => true
        | _ => false) = [] :=
  filter_echo_nil _ (fun _ => rfl) reqs

/-- Claim C4: on a dispatch run whose request stream is a Stop-free
prefix followed by a Shutdown request after a successful Start, a
`StopPending` status is emitted and then the client's `Shutdown`
capability is invoked exactly once when the client implements
`Shutdowner`, otherwise `ws.i.Stop` is invoked exactly once — never
both; and when the invoked callback fails, its error is recorded in the
error slot and the loop terminates with the failure outcome
`(true, 2)`. -/
theorem dispatch_shutdown_exactly_once (c : Client)
    (pre post : List ChangeRequest) (cs : SvcStatus)
    (hpre : ∀ r ∈ pre, r.cmd.isStopLike = false)
    (hstart : c.startErr = none) :
    (execute c (pre ++ ⟨.shutdown, cs⟩ :: post)).1
      = .emit statusStartPending :: .callStart none :: .emit statusRunning ::
          (echoEvents pre ++ .emit statusStopPending ::
            callbackEvents (shutdownMk c) (shutdownResult c))
    ∧ (∀ r, c.shutdown = some r →
        countCallShutdown (execute c (pre ++ ⟨.shutdown, cs⟩ :: post)).1 = 1
        ∧ countCallStop (execute c (pre ++ ⟨.shutdown, cs⟩ :: post)).1 = 0)
    ∧ (c.shutdown = none →
        countCallStop (execute c (pre ++ ⟨.shutdown, cs⟩ :: post)).1 = 1
        ∧ countCallShutdown (execute c (pre ++ ⟨.shutdown, cs⟩ :: post)).1 = 0)
    ∧ (∀ e, shutdownResult c = some e →
        applyWrites none (execute c (pre ++ ⟨.shutdown, cs⟩ :: post)).1 = some e
        ∧ (execute c (pre ++ ⟨.shutdown, cs⟩ :: post)).2 = some (true, 2)) := by
  have heq := execute_shutdown_eq c pre post cs hpre hstart
  refine ⟨by rw [heq], ?_, ?_, ?_⟩
  · intro r hr
    rw [heq]
    cases r with
    | some e =>
      constructor <;>
        simp [countCallShutdown, countCallStop, shutdownMk, shutdownResult,
          hr, callbackEvents, List.filter_append, filterStop_echo,
          filterShutdown_echo]
    | none =>
      constructor <;>
        simp [countCallShutdown, countCallStop, shutdownMk, shutdownResult,
          hr, callbackEvents, List.filter_append, filterStop_echo,
          filterShutdown_echo]
  · intro hr
    rw [heq]
    cases hse : c.stopErr with
    | some e =>
      constructor <;>
        simp [countCallShutdown, countCallStop, shutdownMk, shutdownResult,
          hr, hse, callbackEvents, List.filter_append, filterStop_echo,
          filterShutdown_echo]
    | none =>
      constructor <;>
        simp [countCallShutdown, countCallStop, shutdownMk, shutdownResult,
          hr, hse, callbackEvents, List.filter_append, filterStop_echo,
          filterShutdown_echo]
  · intro e he
    rw [heq]
    cases hs : c.shutdown with
    | some r =>
      have hre : r = some e := by simpa [shutdownResult, hs] using he
      subst hre
      refine ⟨?_, by simp [callbackRet, shutdownResult, hs]⟩
      simp [shutdownMk, hs, he, callbackEvents, applyWrites_cons,
        applyWrites_append, applyWrites_echo, applyWrites_nil]
    | none =>
      have hre : c.stopErr = some e := by simpa [shutdownResult, hs] using he
      refine ⟨?_, by simp [callbackRet, shutdownResult, hs, hre]⟩
      simp [shutdownMk, hs, hre, shutdownResult, callbackEvents,
        applyWrites_cons, applyWrites_append, applyWrites_echo,
        applyWrites_nil]

/-- Witness for C4: a client implementing `Shutdowner` whose `Shutdown`
callback fails — invoked once, `Stop` never, error recorded, failure
outcome. -/
theorem dispatch_shutdown_exactly_once_witness :
    countCallShutdown
        (execute ⟨none, none, some (some "sd")⟩ [⟨.shutdown, statusRunning⟩]).1 = 1
    ∧ countCallStop
        (execute ⟨none, none, some (some "sd")⟩ [⟨.shutdown, statusRunning⟩]).1 = 0
    ∧ applyWrites none
        (execute ⟨none, none, some (some "sd")⟩ [⟨.shutdown, statusRunning⟩]).1
      = some "sd"
    ∧ (execute ⟨none, none, some (some "sd")⟩ [⟨.shutdown, statusRunning⟩]).2
      = some (true, 2) := by
  have h := dispatch_shutdown_exactly_once ⟨none, none, some (some "sd")⟩
    [] [] statusRunning (by decide) rfl
  exact ⟨(h.2.1 (some "sd") rfl).1, (h.2.1 (some "sd") rfl).2,
    (h.2.2.2 "sd" rfl).1, (h.2.2.2 "sd" rfl).2⟩

/-- Outcomes of the receive loop: blocked, clean stop, or a failed
Stop/Shutdown callback — and the latter two exactly correspond to a
recorded callback invocation with that result. -/
theorem execLoop_codes (c : Client) (reqs : List ChangeRequest) :
    ((execLoop c reqs).2 = none ∨ (execLoop c reqs).2 = some (false, 0)
      ∨ (execLoop c reqs).2 = some (true, 2))
    ∧ ((execLoop c reqs).2 = some (true, 2)
        ↔ ∃ e, Event.callStop (some e) ∈ (execLoop c reqs).1
            ∨ Event.callShutdown (some e) ∈ (execLoop c reqs).1)
    ∧ ((execLoop c reqs).2 = some (false, 0)
        ↔ Event.callStop none ∈ (execLoop c reqs).1
            ∨ Event.callShutdown none ∈ (execLoop c reqs).1) := by
  induction reqs with
  | nil => simp [execLoop]
  | cons r rest ih =>
    cases hc : r.cmd with
    | interrogate => simpa [execLoop, hc] using ih
    | stop =>
      cases hse : c.stopErr <;>
        simp [execLoop, hc, hse, callbackEvents, callbackRet]
    | shutdown =>
      cases hs : c.shutdown with
      | some r2 =>
        cases r2 <;> simp [execLoop, hc, hs, callbackEvents, callbackRet]
      | none =>
        cases hse : c.stopErr <;>
          simp [execLoop, hc, hs, hse, callbackEvents, callbackRet]
    | other n => simpa [execLoop, hc] using ih

/-- Claim C9: the dispatch loop's return value to the host supervisor
is fixed per outcome — `(false, 0)` after a successfully handled
Stop/Shutdown, `(true, 1)` exactly when `ws.i.Start` failed, and
`(true, 2)` exactly when a Stop/Shutdown callback failed; so a
non-zero service-specific exit code is reported if and only if a
lifecycle callback failed. -/
theorem dispatch_exit_codes (c : Client) (reqs : List ChangeRequest) :
    ((execute c reqs).2 = none ∨ (execute c reqs).2 = some (false, 0)
      ∨ (execute c reqs).2 = some (true, 1)
      ∨ (execute c reqs).2 = some (true, 2))
    ∧ ((execute c reqs).2 = some (true, 1) ↔ c.startErr.isSome)
    ∧ ((execute c reqs).2 = some (true, 2)
        ↔ ∃ e, Event.callStop (some e) ∈ (execute c reqs).1
            ∨ Event.callShutdown (some e) ∈ (execute c reqs).1)
    ∧ ((execute c reqs).2 = some (false, 0)
        ↔ Event.callStop none ∈ (execute c reqs).1
            ∨ Event.callShutdown none ∈ (execute c reqs).1) := by
  cases hst : c.startErr with
  | some e => simp [execute, hst]
  | none =>
    have h := execLoop_codes c reqs
    refine ⟨?_, ?_, ?_, ?_⟩
    · rcases h.1 with h1 | h1 | h1 <;> simp [execute, hst, h1]
    · rcases h.1 with h1 | h1 | h1 <;> simp [execute, hst, h1]
    · simpa [execute, hst] using h.2.1
    · simpa [execute, hst] using h.2.2

/-- Claim C2: for a non-interactive `Run`, the error slot is reset
before the host primitive is invoked (the result is independent of any
stale slot value), the relay's recorded error is preferred over the
host primitive's own result, with the latter only used when the relay
is empty; and a `Start` failure E is recorded, ends the dispatch run at
`(true, 1)` without entering the receive loop, and is returned by `Run`
even when the host primitive returns no error. -/
theorem run_prefers_relay (initSlot : Option GoErr) (c : Client)
    (reqs : List ChangeRequest) (hostErr : Option GoErr) :
    (runNonInteractive initSlot c reqs hostErr
      = runNonInteractive none c reqs hostErr)
    ∧ (∀ w, applyWrites none (execute c reqs).1 = some w →
        runNonInteractive initSlot c reqs hostErr = some w)
    ∧ (applyWrites none (execute c reqs).1 = none →
        runNonInteractive initSlot c reqs hostErr = hostErr)
    ∧ (∀ E, c.startErr = some E →
        runNonInteractive initSlot c reqs hostErr = some E
        ∧ execute c reqs
            = ([.emit statusStartPending, .callStart (some E), .setErr E],
              some (true, 1))) := by
  refine ⟨rfl, ?_, ?_, ?_⟩
  · intro w hw
    simp [runNonInteractive, hw]
  · intro hw
    simp [runNonInteractive, hw]
  · intro E hE
    constructor
    · simp [runNonInteractive, execute, hE, applyWrites]
    · simp [execute, hE]

/-- Witness for C2: `Start` fails with "E" while the host primitive
returns nil, and a stale slot value "stale" is present; `Run` still
returns "E". -/
theorem run_prefers_relay_witness :
    runNonInteractive (some "stale") ⟨some "E", none, none⟩ [] none
      = some "E" :=
  ((run_prefers_relay (some "stale") ⟨some "E", none, none⟩ [] none).2.2.2
    "E" rfl).1

/-- Claim C5: `Status` reports raw `StartPending` and `Running` as
`StatusRunning`; `PausePending`, `Paused`, `ContinuePending`,
`StopPending` and `Stopped` as `StatusStopped`; any other raw sub-state
as `StatusUnknown` with an unknown-status error; and when the service
instance does not exist (the open fails with errno 1060) it fails with
the not-installed error. -/
theorem status_collapsing (env : StatusEnv) :
    (env.mgrRes = none → env.openRes = none →
      ((env.queryRes = .ok .startPending → statusOf env = (.running, none))
      ∧ (env.queryRes = .ok .running → statusOf env = (.running, none))
      ∧ (env.queryRes = .ok .pausePending → statusOf env = (.stopped, none))
      ∧ (env.queryRes = .ok .paused → statusOf env = (.stopped, none))
      ∧ (env.queryRes = .ok .continuePending → statusOf env = (.stopped, none))
      ∧ (env.queryRes = .ok .stopPending → statusOf env = (.stopped, none))
      ∧ (env.queryRes = .ok .stopped → statusOf env = (.stopped, none))
      ∧ (∀ n, env.queryRes = .ok (.other n) →
          statusOf env = (.unknown, some (.unknownStatus (.other n))))))
    ∧ (env.mgrRes = none →
        env.openRes = some (.errno errnoServiceDoesNotExist) →
        statusOf env = (.unknown, some .notInstalled)) := by
  constructor
  · intro h1 h2
    refine ⟨?_, ?_, ?_, ?_, ?_, ?_, ?_, ?_⟩ <;> intros <;>
      simp_all [statusOf]
  · intro h1 h2
    simp [statusOf, h1, h2]

/-- Witness for C5: a raw `StartPending` collapses to `StatusRunning`,
and a missing instance yields the not-installed error. -/
theorem status_collapsing_witness :
    statusOf ⟨none, none, .ok .startPending⟩ = (.running, none)
    ∧ statusOf ⟨none, some (.errno 1060), .ok .running⟩
      = (.unknown, some .notInstalled) :=
  ⟨((status_collapsing ⟨none, none, .ok .startPending⟩).1 rfl rfl).1 rfl,
    (status_collapsing ⟨none, some (.errno 1060), .ok .running⟩).2 rfl rfl⟩

/-- Claim C6: `Restart` is strictly sequential — the start command is
issued at most once, and exactly when the stop-wait converged; a
stop-wait error is returned immediately with `Start` never attempted,
and a `Start` failure after convergence is returned as `Restart`'s
error. -/
theorem restart_sequential (name : String) (e : ScmEnv)
    (h1 : e.mgrRes = none) (h2 : e.openRes = none) :
    ((restart name e).2 ≤ 1)
    ∧ ((restart name e).2 = 1 ↔ stopWait name e.reg e.ctrl e.q = .ok ())
    ∧ (∀ w, stopWait name e.reg e.ctrl e.q = .error w →
        restart name e = (.error w, 0))
    ∧ (stopWait name e.reg e.ctrl e.q = .ok () →
        (∀ er, e.startRes = some er →
          restart name e = (.error (.start er), 1))
        ∧ (e.startRes = none → restart name e = (.ok (), 1))) := by
  cases hsw : stopWait name e.reg e.ctrl e.q with
  | error w => simp [restart, h1, h2, hsw]
  | ok u =>
    cases u
    cases hsr : e.startRes <;> simp [restart, h1, h2, hsw, hsr]

/-- Witness for C6: the stop-wait converges at once (the control call
already observes `Stopped`) and the subsequent start fails; `Restart`
returns the start error after exactly one start attempt. -/
theorem restart_sequential_witness :
    restart "svc"
      ⟨none, none, .ok .stopped, fun _ => .ok .stopped, ⟨none⟩,
        some "start failed"⟩
      = (.error (.start "start failed"), 1) :=
  ((restart_sequential "svc"
      ⟨none, none, .ok .stopped, fun _ => .ok .stopped, ⟨none⟩,
        some "start failed"⟩ rfl rfl).2.2.2 rfl).1 "start failed" rfl

/-- The stop-wait loop has exactly three outcomes: success, timeout, or
a propagated query error. -/
theorem stopWaitLoop_trichotomy (name : String)
    (q : Nat → Except GoErr RawState) :
    ∀ fuel i st,
      stopWaitLoop name q fuel i st = .ok ()
      ∨ stopWaitLoop name q fuel i st = .error (.stopTimeout name)
      ∨ ∃ er, stopWaitLoop name q fuel i st = .error (.query er) := by
  intro fuel
  induction fuel with
  | zero =>
    intro i st
    by_cases hs : st = .stopped <;> simp [stopWaitLoop, hs]
  | succ fuel ih =>
    intro i st
    by_cases hs : st = .stopped
    · simp [stopWaitLoop, hs]
    · cases hq : q i with
      | error er =>
        exact Or.inr (Or.inr ⟨er, by simp [stopWaitLoop, hs, hq]⟩)
      | ok st' =>
        have := ih (i + 1) st'
        simpa [stopWaitLoop, hs, hq] using this

/-- When every query succeeds, the stop-wait loop either succeeds or
times out. -/
theorem stopWaitLoop_all_ok (name : String)
    (q : Nat → Except GoErr RawState)
    (hq : ∀ i, ∃ st', q i = .ok st') :
    ∀ fuel i st,
      stopWaitLoop name q fuel i st = .ok ()
      ∨ stopWaitLoop name q fuel i st = .error (.stopTimeout name) := by
  intro fuel
  induction fuel with
  | zero =>
    intro i st
    by_cases hs : st = .stopped <;> simp [stopWaitLoop, hs]
  | succ fuel ih =>
    intro i st
    by_cases hs : st = .stopped
    · simp [stopWaitLoop, hs]
    · obtain ⟨st', hst'⟩ := hq i
      have := ih (i + 1) st'
      simpa [stopWaitLoop, hs, hst'] using this

/-- When no query ever errors or observes `Stopped` and the initial
state is not `Stopped`, the stop-wait loop times out. -/
theorem stopWaitLoop_never_stopped (name : String)
    (q : Nat → Except GoErr RawState)
    (hq : ∀ i, ∃ st', q i = .ok st' ∧ st' ≠ .stopped) :
    ∀ fuel i st, st ≠ .stopped →
      stopWaitLoop name q fuel i st = .error (.stopTimeout name) := by
  intro fuel
  induction fuel with
  | zero =>
    intro i st hs
    simp [stopWaitLoop, hs]
  | succ fuel ih =>
    intro i st hs
    obtain ⟨st', hst', hne⟩ := hq i
    have := ih (i + 1) st' hne
    simpa [stopWaitLoop, hs, hst'] using this

/-- Counterexample to C3 as stated: a `Stop()` whose stop control
signal succeeds (observing `Running`) but whose first status query
fails returns the query's error — an outcome that is neither success
nor the timeout error, so success and timeout are not the only two
outcomes of the wait. -/
theorem stop_wait_query_error_counterexample :
    stop "s" ⟨none, none, .ok .running, fun _ => .error "query boom",
        ⟨none⟩, none⟩
      = .error (.query "query boom")
    ∧ stop "s" ⟨none, none, .ok .running, fun _ => .error "query boom",
        ⟨none⟩, none⟩
      ≠ .ok ()
    ∧ stop "s" ⟨none, none, .ok .running, fun _ => .error "query boom",
        ⟨none⟩, none⟩
      ≠ .error (.stopTimeout "s") := by
  have h : stop "s" ⟨none, none, .ok .running, fun _ => .error "query boom",
      ⟨none⟩, none⟩ = .error (.query "query boom") := rfl
  exact ⟨h, by simp [h], by simp [h]⟩

/-- Claim C3 (amended): for every `Stop()` call that successfully
issues the stop control signal, the wait polls the observed status
until it reports `Stopped`, returning success on the first `Stopped`
observation, returning `TimeoutError` when the poll budget implied by
the deadline (resolved kill-timeout plus two 50ms intervals) is
exhausted first, or returning the error of a failed status query;
these three are the only outcomes, and when every query succeeds only
success and timeout remain. -/
theorem stop_wait_outcomes (name : String) (e : ScmEnv)
    (h1 : e.mgrRes = none) (h2 : e.openRes = none)
    (st : RawState) (hc : e.ctrl = .ok st) :
    (stop name e = .ok ()
      ∨ stop name e = .error (.stopTimeout name)
      ∨ ∃ er, stop name e = .error (.query er))
    ∧ (st = .stopped → stop name e = .ok ())
    ∧ ((∀ i, ∃ st', e.q i = .ok st') →
        stop name e = .ok ()
        ∨ stop name e = .error (.stopTimeout name))
    ∧ (st ≠ .stopped → (∀ i, ∃ st', e.q i = .ok st' ∧ st' ≠ .stopped) →
        stop name e = .error (.stopTimeout name)) := by
  have hs : stop name e = stopWaitLoop name e.q (stopTickBudget e.reg) 0 st := by
    simp [stop, h1, h2, stopWait, hc]
  refine ⟨?_, ?_, ?_, ?_⟩
  · rw [hs]
    exact stopWaitLoop_trichotomy name e.q _ 0 st
  · intro hst
    rw [hs, hst]
    cases stopTickBudget e.reg <;> simp [stopWaitLoop]
  · intro hq
    rw [hs]
    exact stopWaitLoop_all_ok name e.q hq _ 0 st
  · intro hst hq
    rw [hs]
    exact stopWaitLoop_never_stopped name e.q hq _ 0 st hst

/-- Witness for amended C3: the control call already observes
`Stopped`, so the wait returns success immediately. -/
theorem stop_wait_outcomes_witness :
    stop "svc" ⟨none, none, .ok .stopped, fun _ => .ok .running,
        ⟨none⟩, none⟩
      = .ok () :=
  (stop_wait_outcomes "svc"
    ⟨none, none, .ok .stopped, fun _ => .ok .running, ⟨none⟩, none⟩
    rfl rfl .stopped rfl).2.1 rfl

/-- When the service entry never disappears, the uninstall wait times
out once its poll budget is exhausted. -/
theorem uninstallWaitLoop_timeout (name : String)
    (opens : Nat → Option WinErr) (h : ∀ j, opens j = none) :
    ∀ fuel i,
      uninstallWaitLoop name opens fuel i = .error (.deleteTimeout name) := by
  intro fuel
  induction fuel with
  | zero => intro i; rfl
  | succ fuel ih =>
    intro i
    simp [uninstallWaitLoop, h i, ih (i + 1)]

/-- When the entry is reported gone (errno 1060) at the k-th poll
within budget, after k polls that still saw it, the uninstall wait
succeeds. -/
theorem uninstallWaitLoop_gone (name : String)
    (opens : Nat → Option WinErr) :
    ∀ k fuel i, k < fuel →
      (∀ j, j < k → opens (i + j) = none) →
      opens (i + k) = some (.errno errnoServiceDoesNotExist) →
      uninstallWaitLoop name opens fuel i = .ok () := by
  intro k
  induction k with
  | zero =>
    intro fuel i hk _ hg
    cases fuel with
    | zero => omega
    | succ fuel =>
      rw [Nat.add_zero] at hg
      simp [uninstallWaitLoop, hg]
  | succ k ih =>
    intro fuel i hk hnone hg
    cases fuel with
    | zero => omega
    | succ fuel =>
      have h0 : opens i = none := by
        have := hnone 0 (by omega)
        rwa [Nat.add_zero] at this
      have hnone' : ∀ j, j < k → opens (i + 1 + j) = none := by
        intro j hj
        have e1 : i + 1 + j = i + (j + 1) := by omega
        rw [e1]
        exact hnone (j + 1) (by omega)
      have hg' : opens (i + 1 + k) = some (.errno errnoServiceDoesNotExist) := by
        have e2 : i + 1 + k = i + (k + 1) := by omega
        rw [e2]
        exact hg
      have hrec := ih fuel (i + 1) (by omega) hnone' hg'
      simp [uninstallWaitLoop, h0, hrec]

/-- Counterexample to C7 as stated: an `Uninstall()` whose initial
`Stop()` fails (here the manager connection is denied) returns that
error immediately and never issues the delete — even though, at this
input, every later step would have succeeded (the entry would open,
delete cleanly, and be observed gone at the first poll).  So an
unsuccessful Stop does prevent the rest of the uninstall. -/
theorem uninstall_not_best_effort :
    uninstall "svc"
      ⟨⟨some (.other "access denied"), none, .ok .stopped,
          fun _ => .ok .stopped, ⟨none⟩, none⟩,
        none, none, none, none, fun _ => some (.errno 1060), ⟨none⟩⟩
      = (.error (.stopFailed (.win (.other "access denied"))), false) := rfl

/-- Claim C7 (amended): every `Uninstall()` call performs `Stop()`
first and returns its error immediately when it fails, without deleting
the service entry; when Stop succeeds (and the manager, open, delete
and event-log-removal steps raise no error) it deletes the entry and
performs the uninstall wait — polling every 100ms for the entry's
absence (an open failing with the not-installed errno), succeeding when
the entry is gone and failing with the timeout error when the poll
budget implied by the deadline (kill-timeout plus two 100ms intervals)
is exhausted first. -/
theorem uninstall_stop_first (name : String) (env : UninstallEnv) :
    (∀ er, stop name env.stopEnv = .error er →
        uninstall name env = (.error (.stopFailed er), false))
    ∧ (stop name env.stopEnv = .ok () → env.connect = none →
        env.openRes = none → env.deleteRes = none → env.removeRes = none →
        uninstall name env
          = (uninstallWaitLoop name env.opens (uninstallTickBudget env.reg) 0,
            true))
    ∧ ((∀ j, env.opens j = none) → ∀ fuel i,
        uninstallWaitLoop name env.opens fuel i
          = .error (.deleteTimeout name))
    ∧ (∀ k fuel, k < fuel → (∀ j, j < k → env.opens j = none) →
        env.opens k = some (.errno errnoServiceDoesNotExist) →
        uninstallWaitLoop name env.opens fuel 0 = .ok ()) := by
  refine ⟨?_, ?_, ?_, ?_⟩
  · intro er her
    simp [uninstall, her]
  · intro hst hc ho hd hr
    simp [uninstall, hst, hc, ho, hd, hr]
  · intro h fuel i
    exact uninstallWaitLoop_timeout name env.opens h fuel i
  · intro k fuel hk hnone hg
    refine uninstallWaitLoop_gone name env.opens k fuel 0 hk ?_ ?_
    · intro j hj
      rw [Nat.zero_add]
      exact hnone j hj
    · rw [Nat.zero_add]
      exact hg

/-- Witness for amended C7: Stop succeeds, all intermediate steps
succeed, and the entry is observed gone at the first poll, so
`Uninstall` deletes the entry and returns success. -/
theorem uninstall_stop_first_witness :
    uninstall "svc"
      ⟨⟨none, none, .ok .stopped, fun _ => .ok .stopped, ⟨none⟩, none⟩,
        none, none, none, none, fun _ => some (.errno 1060), ⟨none⟩⟩
      = (.ok (), true) := by
  have h := (uninstall_stop_first "svc"
    ⟨⟨none, none, .ok .stopped, fun _ => .ok .stopped, ⟨none⟩, none⟩,
      none, none, none, none, fun _ => some (.errno 1060), ⟨none⟩⟩).2.1
    rfl rfl rfl rfl rfl
  rw [h]
  rfl

/-- Claim C10: once the service entry has been created, a failure of
the event-log source registration whose error does not mention
"exists" makes `Install` delete the just-created entry and return the
wrapped error, while an error mentioning "exists" leaves the entry in
place and `Install` succeeds. -/
theorem install_eventlog_atomic (cfg : WSConfig) (env : InstallEnv)
    (p : String) (hp : env.execPath = .ok p)
    (hc : env.connect = none)
    (he : setEnvironmentVariablesInRegistry cfg.envVars env.envReg = none)
    (ho : env.openExisting = false)
    (hcr : env.create = none)
    (hr : (if cfg.onFailure.getD "" ≠ "" then env.setRecovery else none)
      = none) :
    ∀ e, env.installEventLog = some e →
      (strContains e "exists" = false →
        install cfg env
          = ⟨some ("SetupEventLogSource() failed: " ++ e), true, true⟩)
      ∧ (strContains e "exists" = true →
        install cfg env = ⟨none, true, false⟩) := by
  intro e hev
  constructor <;> intro hs <;>
    simp [install, hp, hc, he, ho, hcr, hr, hev, hs]

/-- Witness for C10: a "boom" registration error rolls the entry back
and surfaces the wrapped error; an "already exists" registration error
keeps the entry and `Install` succeeds. -/
theorem install_eventlog_atomic_witness :
    install ⟨"svc", [], none⟩
      ⟨.ok "/bin/app", none, ⟨none, none, none⟩, false, none, none,
        some "boom"⟩
      = ⟨some ("SetupEventLogSource() failed: " ++ "boom"), true, true⟩
    ∧ install ⟨"svc", [], none⟩
      ⟨.ok "/bin/app", none, ⟨none, none, none⟩, false, none, none,
        some "event source already exists"⟩
      = ⟨none, true, false⟩ := by
  constructor
  · exact (install_eventlog_atomic ⟨"svc", [], none⟩
      ⟨.ok "/bin/app", none, ⟨none, none, none⟩, false, none, none,
        some "boom"⟩
      "/bin/app" rfl rfl rfl rfl rfl (by simp) "boom" rfl).1 (by decide)
  · exact (install_eventlog_atomic ⟨"svc", [], none⟩
      ⟨.ok "/bin/app", none, ⟨none, none, none⟩, false, none, none,
        some "event source already exists"⟩
      "/bin/app" rfl rfl rfl rfl rfl (by simp)
      "event source already exists" rfl).2 (by decide)

end SvcModel
